import Mathlib

/-!
Verification of the Viessmann identity-and-telemetry client
(repository `web-form-datacollection`, directory `src/backend/src/backend`).

The Python modules under verification are shallowly embedded below:
- `iot_data/get_iot_config.py`   (token cache, `get_valid_token`, `_extract_list`)
- `api_auth/auth.py`             (PKCE challenge, authorization-code extraction,
                                  `exchange_code_for_token`)
- `iot_data/feature_extractors.py` (scalar/raw extractors and numeric coercion)
- `iot_data/feature_data_fetcher.py` (`get_feature_data`, `get_single_feature`)
- `iot_data/heating_values.py`   (`_extract_gas_consumption_m3_pair`)

Modelling conventions:
- Python/JSON values become the inductive `PyVal`.  Python `None` is
  `PyVal.none`; a `dict` is an ordered association list.
- Python numbers are modelled exactly: `int` as `Int` and `float` as `Rat`.
  The code under verification only parses decimal literals and passes
  numbers through (no float arithmetic), so exact rationals are a faithful
  model of every behaviour the theorems mention.  The string-to-float model
  `pyFloatParse` covers finite decimal literals (sign, digits, point,
  exponent, digit-group underscores); the special literals inf/nan and
  non-ASCII text are outside the model.
- HTTP traffic is modelled by passing the response (status, body text,
  JSON-parse outcome) or an oracle of outcomes as an explicit argument.
- A raised `CliError` becomes `Except.error`; an uncaught Python
  `TypeError` is the distinct error `PyError.typeError`.
-/

set_option maxRecDepth 100000

namespace Viessmann

/-- Model of a Python/JSON value as manipulated by the client code. -/
inductive PyVal where
  | none
  | bool (b : Bool)
  | int (n : Int)
  | float (q : Rat)
  | str (s : String)
  | list (xs : List PyVal)
  | dict (kvs : List (String × PyVal))
  deriving Repr

/-- First value stored under key `k`, if the dict has the key. -/
def pyLookup (kvs : List (String × PyVal)) (k : String) : Option PyVal :=
  match kvs with
  | [] => Option.none
  | (k', v) :: rest => if k' = k then some v else pyLookup rest k

/-- Python `d.get(k)` (default `None`): the stored value, or `None` when the
key is absent or the receiver is not a dict. -/
def pyGet (v : PyVal) (k : String) : PyVal :=
  match v with
  | .dict kvs => (pyLookup kvs k).getD .none
  | _ => .none

/-- Python `k in d` membership test on a dict. -/
def pyHasKey (v : PyVal) (k : String) : Bool :=
  match v with
  | .dict kvs => kvs.any (fun kv => kv.1 = k)
  | _ => false

/-- Python `d.get(k, default)`. -/
def pyGetD (v : PyVal) (k : String) (d : PyVal) : PyVal :=
  if pyHasKey v k then pyGet v k else d

/-- Python truthiness of a value. -/
def pyTruthy : PyVal → Bool
  | .none => false
  | .bool b => b
  | .int n => decide (n ≠ 0)
  | .float q => decide (q ≠ 0)
  | .str s => decide (s ≠ "")
  | .list xs => !xs.isEmpty
  | .dict kvs => !kvs.isEmpty

/-- Python `a or b`. -/
def pyOr (a b : PyVal) : PyVal :=
  if pyTruthy a then a else b

/-- Python `v == s` where `s` is a string: true only for an equal string. -/
def pyEqStr (v : PyVal) (s : String) : Bool :=
  match v with
  | .str t => decide (t = s)
  | _ => false

/-- `isinstance(v, dict)`. -/
def pyIsDict : PyVal → Bool
  | .dict _ => true
  | _ => false

/-- Python `is None`. -/
def pyIsNone : PyVal → Bool
  | .none => true
  | _ => false

/-- Truncation of a rational toward zero, as Python `int(float)`. -/
def ratTrunc (q : Rat) : Int :=
  if q < 0 then -((-q).floor) else q.floor

/-! ### Model of `float(str)` on finite decimal literals -/

/-- Digit-group tail: digits with single underscores strictly between digits
(the Python numeric-literal rule), accumulating the decimal value and length
of the digits seen. -/
def digitsCore : List Char → Nat → Nat → Option (Nat × Nat)
  | [], acc, len => some (acc, len)
  | '_' :: c :: cs, acc, len =>
      if c.isDigit then digitsCore cs (acc * 10 + (c.toNat - 48)) (len + 1)
      else Option.none
  | '_' :: [], _, _ => Option.none
  | c :: cs, acc, len =>
      if c.isDigit then digitsCore cs (acc * 10 + (c.toNat - 48)) (len + 1)
      else Option.none

/-- Non-empty digit group: value and number of digits. -/
def parseDigitGroup : List Char → Option (Nat × Nat)
  | [] => Option.none
  | c :: cs => if c.isDigit then digitsCore cs (c.toNat - 48) 1 else Option.none

/-- Possibly-empty digit group (used for the two sides of the decimal point). -/
def parseDigitGroupOpt : List Char → Option (Nat × Nat)
  | [] => some (0, 0)
  | cs => parseDigitGroup cs

/-- Split a character list at the first occurrence of a separator. -/
def splitAtFirst (sep : Char) : List Char → Option (List Char × List Char)
  | [] => Option.none
  | c :: cs =>
      if c = sep then some ([], cs)
      else match splitAtFirst sep cs with
        | some (l, r) => some (c :: l, r)
        | Option.none => Option.none

/-- Mantissa `digits [. digits]` with at least one digit overall; returns the
numerator over `10 ^ fracLen`. -/
def parseMantissa (cs : List Char) : Option (Nat × Nat) :=
  match splitAtFirst '.' cs with
  | Option.none =>
      match parseDigitGroup cs with
      | some (v, _) => some (v, 0)
      | Option.none => Option.none
  | some (intPart, fracPart) =>
      match parseDigitGroupOpt intPart, parseDigitGroupOpt fracPart with
      | some (iv, il), some (fv, fl) =>
          if il + fl = 0 then Option.none
          else some (iv * 10 ^ fl + fv, fl)
      | _, _ => Option.none

/-- Optional sign prefix; returns (negative?, rest). -/
def parseSign : List Char → Bool × List Char
  | '+' :: cs => (false, cs)
  | '-' :: cs => (true, cs)
  | cs => (false, cs)

/-- Exponent part after `e`/`E`: optional sign and a digit group. -/
def parseExponent (cs : List Char) : Option Int :=
  let (neg, rest) := parseSign cs
  match parseDigitGroup rest with
  | some (v, _) => some (if neg then -(v : Int) else (v : Int))
  | Option.none => Option.none

/-- Model of Python `float(s)` restricted to finite decimal literals:
optional surrounding whitespace, optional sign, `digits[.digits]` or
`.digits`, optional decimal exponent.  Returns `none` where Python raises
`ValueError` (and on the inf/nan literals, which are outside the model). -/
def pyFloatParse (s : String) : Option Rat :=
  let cs := ((s.toList.dropWhile Char.isWhitespace).reverse.dropWhile
              Char.isWhitespace).reverse
  let (neg, rest) := parseSign cs
  let (mantPart, expo) :=
    match splitAtFirst 'e' rest with
    | some (m, e) => (m, some e)
    | Option.none =>
        match splitAtFirst 'E' rest with
        | some (m, e) => (m, some e)
        | Option.none => (rest, Option.none)
  match parseMantissa mantPart with
  | Option.none => Option.none
  | some (num, fracLen) =>
      let expVal : Option Int :=
        match expo with
        | Option.none => some 0
        | some e => parseExponent e
      match expVal with
      | Option.none => Option.none
      | some ex =>
          let sNum : Int := if neg then -(num : Int) else (num : Int)
          some (if 0 ≤ ex then
                  mkRat (sNum * ((10 ^ ex.toNat : Nat) : Int)) (10 ^ fracLen)
                else
                  mkRat sNum (10 ^ (fracLen + (-ex).toNat)))

/-! ### `feature_extractors.py`: numeric coercion and the extractors -/

/-- `_coerce_float` from `feature_extractors.py`: `None`, numbers (a Python
bool is an `int` instance), parseable strings; everything else is `None`. -/
def _coerce_float : PyVal → Option Rat
  | .none => Option.none
  | .bool b => some (if b then 1 else 0)
  | .int n => some (n : Rat)
  | .float q => some q
  | .str s => pyFloatParse s
  | _ => Option.none

/-- `_coerce_int` from `feature_extractors.py`: ints pass, floats truncate
toward zero, strings go through `int(float(s))`; everything else is `None`. -/
def _coerce_int : PyVal → Option Int
  | .none => Option.none
  | .bool b => some (if b then 1 else 0)
  | .int n => some n
  | .float q => some (ratTrunc q)
  | .str s => (pyFloatParse s).map ratTrunc
  | _ => Option.none

/-- `_extract_scalar_from_prop`: numbers pass through; a dict with a
`value` key coerces that member with `_coerce_float`; anything else
(including a bare string) is `None`. -/
def _extract_scalar_from_prop (prop_value : PyVal) : Option Rat :=
  match prop_value with
  | .none => Option.none
  | .bool b => some (if b then 1 else 0)
  | .int n => some (n : Rat)
  | .float q => some q
  | .dict _ =>
      if pyHasKey prop_value "value" then _coerce_float (pyGet prop_value "value")
      else Option.none
  | _ => Option.none

/-- `extract_temperature`: `properties.temperature` (dict unwrapped through
`_extract_scalar_from_prop` on its `value` member, scalar through
`_coerce_float`), else `properties.value` through
`_extract_scalar_from_prop`, else `None`. -/
def extract_temperature (feature : PyVal) : Option Rat :=
  let props := pyOr (pyGet feature "properties") (.dict [])
  if pyHasKey props "temperature" then
    let val := pyGet props "temperature"
    match val with
    | .dict _ => _extract_scalar_from_prop (pyGet val "value")
    | _ => _coerce_float val
  else if pyHasKey props "value" then
    _extract_scalar_from_prop (pyGet props "value")
  else Option.none

/-- `extract_consumption`: the `properties` object verbatim (or `{}`). -/
def extract_consumption (feature : PyVal) : PyVal :=
  pyOr (pyGet feature "properties") (.dict [])

/-- `extract_raw_properties`: the `properties` object verbatim (or `{}`). -/
def extract_raw_properties (feature : PyVal) : PyVal :=
  pyOr (pyGet feature "properties") (.dict [])

/-- One field of `extract_burner_statistics`: skip when the property is
`None`, unwrap a dict through its `value` member, then `_coerce_int`. -/
def burnerField (prop : PyVal) : Option Int :=
  match prop with
  | .none => Option.none
  | .dict _ => _coerce_int (pyGet prop "value")
  | v => _coerce_int v

/-- `extract_burner_statistics`: the result dict with keys
`betriebsstunden` and `starts`, each `_coerce_int` of the (possibly
`value`-wrapped) property, defaulting to `None`. -/
def extract_burner_statistics (feature : PyVal) : PyVal :=
  let props := pyOr (pyGet feature "properties") (.dict [])
  let bs := burnerField (pyGet props "hours")
  let st := burnerField (pyGet props "starts")
  .dict [("betriebsstunden", match bs with | some n => .int n | Option.none => .none),
         ("starts", match st with | some n => .int n | Option.none => .none)]

/-- Substring test used by the dispatcher (`pat in path`). -/
def strContains (s pat : String) : Bool :=
  (s.toList.tails).any (fun t => pat.toList.isPrefixOf t)

/-- Result of `extract_temperature` as a Python value (`float` or `None`). -/
def extract_temperature_py (feature : PyVal) : PyVal :=
  match extract_temperature feature with
  | some q => .float q
  | Option.none => .none

/-- `_get_extractor`: substring dispatch over the feature path
(temperature, consumption/heat.production, burners+statistics, raw). -/
def _get_extractor (feature_path : String) : PyVal → PyVal :=
  if strContains feature_path ".temperature" then extract_temperature_py
  else if strContains feature_path "consumption" || strContains feature_path "heat.production" then
    extract_consumption
  else if strContains feature_path "burners" && strContains feature_path "statistics" then
    extract_burner_statistics
  else extract_raw_properties

/-- `extract_feature_value`: `None` for an absent feature, otherwise the
dispatched extractor applied to it. -/
def extract_feature_value (feature_path : String) (feature : Option PyVal) : PyVal :=
  match feature with
  | Option.none => .none
  | some f => _get_extractor feature_path f

/-! ### Errors and HTTP responses -/

/-- The single typed error of the client (`CliError` in `api_auth/auth.py`),
carrying its user-facing message. -/
structure CliError where
  msg : String
  deriving Repr, DecidableEq

/-- An error outcome: a raised `CliError`, or an uncaught Python
`TypeError`/`AttributeError` (a crash, distinct from every typed error). -/
inductive PyError where
  | cli (e : CliError)
  | typeError
  deriving Repr, DecidableEq

/-- An HTTP response as the client observes it: status code, body text, and
the outcome of `resp.json()` (`none` models a JSON parse failure). -/
structure HttpResponse where
  status : Nat
  text : String
  json : Option PyVal

/-! ### `get_iot_config.py`: `_extract_list` -/

/-- `_extract_list`: normalises `{"data": [...]}` / `{"data": {...}}` / bare
list to a list, raising `CliError` on any other shape or on non-dict items. -/
def _extract_list (payload : PyVal) (url : String) : Except CliError (List PyVal) :=
  let items : Except CliError (List PyVal) :=
    match payload with
    | .dict _ =>
        if pyHasKey payload "data" then
          match pyGet payload "data" with
          | .list xs => .ok xs
          | .dict kvs => .ok [.dict kvs]
          | _ => .error ⟨"Unexpected data type from " ++ url ++ ": expected list or object."⟩
        else .error ⟨"Unexpected JSON shape from " ++ url ++ ": expected list or dict with data."⟩
    | .list xs => .ok xs
    | _ => .error ⟨"Unexpected JSON shape from " ++ url ++ ": expected list or dict with data."⟩
  match items with
  | .ok xs =>
      if xs.all pyIsDict then .ok xs
      else .error ⟨"Unexpected items from " ++ url ++ ": expected list of objects."⟩
  | .error e => .error e

/-! ### `feature_data_fetcher.py`: `get_single_feature` and `get_feature_data` -/

/-- `get_single_feature`, as a function of the observed HTTP response for
the per-feature endpoint: 404 is `None`, other 4xx/5xx raise, invalid JSON
raises, then envelope normalisation; an empty list or a feature whose
`isEnabled` is falsy is `None`. -/
def get_single_feature (url : String) (resp : HttpResponse) :
    Except CliError (Option PyVal) :=
  if resp.status = 404 then .ok Option.none
  else if 400 ≤ resp.status then
    .error ⟨"GET " ++ url ++ " failed: HTTP error."⟩
  else
    match resp.json with
    | Option.none => .error ⟨"GET " ++ url ++ " response was not valid JSON."⟩
    | some payload =>
        match _extract_list payload url with
        | .error e => .error e
        | .ok items =>
            match items with
            | [] => .ok Option.none
            | f :: _ =>
                if !pyTruthy (pyGetD f "isEnabled" (.bool true)) then .ok Option.none
                else .ok (some f)

/-- The in-memory branch of `get_feature_data`: first list entry that is a
dict with `feature == feature_path`; `None` when that entry is disabled or
when there is no match. -/
def get_feature_data_cached (feature_path : String) (features_data : List PyVal) :
    Option PyVal :=
  match features_data.find? (fun f => pyIsDict f && pyEqStr (pyGet f "feature") feature_path) with
  | some f =>
      if !pyTruthy (pyGetD f "isEnabled" (.bool true)) then Option.none
      else some f
  | Option.none => Option.none

/-- `get_feature_data`: in-memory lookup when a pre-fetched list is
supplied, otherwise the single-feature fetch on the given response. -/
def get_feature_data (feature_path : String) (features_data : Option (List PyVal))
    (url : String) (resp : HttpResponse) : Except CliError (Option PyVal) :=
  match features_data with
  | some fs => .ok (get_feature_data_cached feature_path fs)
  | Option.none => get_single_feature url resp

/-! ### `heating_values.py`: `_extract_gas_consumption_m3_pair` -/

/-- Model of `float(x)` wrapped in `try/except (TypeError, ValueError)` as
used per array element: `none` exactly where Python raises one of the two. -/
def pyFloatCatch : PyVal → Option Rat
  | .none => Option.none
  | .bool b => some (if b then 1 else 0)
  | .int n => some (n : Rat)
  | .float q => some q
  | .str s => pyFloatParse s
  | _ => Option.none

/-- `_extract_gas_consumption_m3_pair`: `(day.value[0], day.value[1])` as
floats, each `None` when absent or not convertible; `(None, None)` for a
non-dict input, a non-dict `day`, or a non-list/empty `value`. -/
def _extract_gas_consumption_m3_pair (consumption_props : PyVal) :
    Option Rat × Option Rat :=
  match consumption_props with
  | .dict _ =>
      match pyGet consumption_props "day" with
      | .dict dkvs =>
          match pyGet (.dict dkvs) "value" with
          | .list val_arr =>
              if val_arr.isEmpty then (Option.none, Option.none)
              else
                let today := match val_arr.head? with
                  | some v => pyFloatCatch v
                  | Option.none => Option.none
                let yesterday := match val_arr.drop 1 with
                  | v :: _ => pyFloatCatch v
                  | [] => Option.none
                (today, yesterday)
          | _ => (Option.none, Option.none)
      | _ => (Option.none, Option.none)
  | _ => (Option.none, Option.none)

/-! ### Token cache (`get_iot_config.py`) and the token-exchange interface -/

/-- Modelled from the spec: the record returned by the token-endpoint
grants, `{access_token, refresh_token?, expires_in?}` (section 4.3).  The
class `TokenResponse` itself is missing from the source snapshot; only its
callers (`get_valid_token`) and its tests reference it. -/
structure TokenResponse where
  access_token : String
  refresh_token : Option String
  expires_in : Option Int
  deriving Repr, DecidableEq

/-- The token-cache file as the loader can observe it: absent, unreadable
or invalid JSON, or parsed JSON content. -/
inductive CacheFile where
  | missing
  | invalid
  | json (v : PyVal)

/-- `load_token_cache`: `None` unless the file parses to a dict containing
both `access_token` and `expires_at`. -/
def load_token_cache : CacheFile → Option PyVal
  | .missing => Option.none
  | .invalid => Option.none
  | .json v =>
      match v with
      | .dict kvs =>
          if pyHasKey (.dict kvs) "access_token" && pyHasKey (.dict kvs) "expires_at" then
            some (.dict kvs)
          else Option.none
      | _ => Option.none

/-- Outcomes of the `auth_mod` collaborator threaded through
`get_valid_token`: the refresh grant (modelled from the spec, section 4.3,
since `refresh_access_token` is missing from the source snapshot), the
authorize call, and the code-for-token exchange, each with its typed-error
channel. -/
structure AuthOracle where
  refresh : PyVal → Except CliError TokenResponse
  authorize : Except CliError String
  exchange : String → Except CliError TokenResponse

/-- Observable side effects of `get_valid_token`: the three kinds of
network POST and each cache write with the exact record written. -/
inductive Event where
  | refreshPost
  | authorizePost
  | tokenPost
  | save (data : List (String × PyVal))
  deriving Repr

/-- Drop the entries whose value is `None`
(`{k: v for k, v in save_data.items() if v is not None}`). -/
def dropNones (l : List (String × PyVal)) : List (String × PyVal) :=
  l.filter (fun kv => !pyIsNone kv.2)

/-- A numeric value usable in the `now < expires_at - 300` comparison
(ints, floats, and bools, which Python treats as ints); `none` models the
`TypeError` of comparing a non-number. -/
def pyAsNum : PyVal → Option Rat
  | .bool b => some (if b then 1 else 0)
  | .int n => some (n : Rat)
  | .float q => some q
  | _ => Option.none

/-- Python `int(x)` on the cache-hit `expires_at`: ints pass, floats
truncate toward zero, bools map to 0/1; `none` models the uncaught
`TypeError` on any other type. -/
def pyIntBuiltin : PyVal → Option Int
  | .bool b => some (if b then 1 else 0)
  | .int n => some n
  | .float q => some (ratTrunc q)
  | _ => Option.none

/-- The result tuple of `get_valid_token`
`(access_token, refresh_token, installation_id, gateway_serial, device_id, expires_at)`. -/
structure GvtResult where
  access_token : PyVal
  refresh_token : PyVal
  installation_id : PyVal
  gateway_serial : PyVal
  device_id : PyVal
  expires_at : PyVal
  deriving Repr

/-- An `Option String` as the Python value it came from. -/
def optStrToPy : Option String → PyVal
  | some s => .str s
  | Option.none => .none

/-- An `Option Int` as the Python value it came from. -/
def optIntToPy : Option Int → PyVal
  | some n => .int n
  | Option.none => .none

/-- Step 2 of `get_valid_token`: the full OAuth flow
(`request_authorization_code` then the record-returning exchange), with the
cache write `{access_token, refresh_token, expires_at}` when a cache path
is configured and a refresh token was returned. -/
def full_oauth_flow (now : Int) (oracle : AuthOracle) (cachePathPresent : Bool) :
    List Event × Except PyError GvtResult :=
  match oracle.authorize with
  | .error e => ([.authorizePost], .error (.cli e))
  | .ok code =>
      match oracle.exchange code with
      | .error e => ([.authorizePost, .tokenPost], .error (.cli e))
      | .ok tr =>
          let expires_at : Int := now + tr.expires_in.getD 3600
          let saveEvents : List Event :=
            if cachePathPresent && pyTruthy (optStrToPy tr.refresh_token) then
              [.save [("access_token", .str tr.access_token),
                      ("refresh_token", optStrToPy tr.refresh_token),
                      ("expires_at", .int expires_at)]]
            else []
          ([.authorizePost, .tokenPost] ++ saveEvents,
           .ok ⟨.str tr.access_token, optStrToPy tr.refresh_token,
                .none, .none, .none, .int expires_at⟩)

/-- Step 1 of `get_valid_token`: either the cache settles the call
(`some` outcome with its events) or control falls through to the full
OAuth flow (`none`, with the events accumulated so far). -/
def gvt_cache_phase (now : Int) (oracle : AuthOracle) (cache : Option CacheFile) :
    List Event × Option (Except PyError GvtResult) :=
  match cache with
  | Option.none => ([], Option.none)
  | some cfile =>
      match load_token_cache cfile with
      | Option.none => ([], Option.none)
      | some cached =>
          let expires_at := pyGet cached "expires_at"
          let access_token := pyGet cached "access_token"
          let refresh_token := pyGet cached "refresh_token"
          let inst_id := pyGet cached "installation_id"
          let gw_serial := pyGet cached "gateway_serial"
          let dev_id := pyGet cached "device_id"
          if pyTruthy access_token && !pyIsNone expires_at then
            match pyAsNum expires_at with
            | Option.none => ([], some (.error .typeError))
            | some e =>
                if (now : Rat) < e - 300 then
                  match pyIntBuiltin expires_at with
                  | some n =>
                      ([], some (.ok ⟨access_token, refresh_token,
                                      inst_id, gw_serial, dev_id, .int n⟩))
                  | Option.none => ([], some (.error .typeError))
                else if pyTruthy refresh_token then
                  match oracle.refresh refresh_token with
                  | .ok tr =>
                      let new_expires : PyVal :=
                        match tr.expires_in with
                        | some ei => .int (now + ei)
                        | Option.none => expires_at
                      let save_data := dropNones
                        [("access_token", .str tr.access_token),
                         ("refresh_token", pyOr (optStrToPy tr.refresh_token) refresh_token),
                         ("expires_at", new_expires),
                         ("installation_id", inst_id),
                         ("gateway_serial", gw_serial),
                         ("device_id", dev_id)]
                      ([.refreshPost, .save save_data],
                       some (.ok ⟨.str tr.access_token,
                                  pyOr (optStrToPy tr.refresh_token) refresh_token,
                                  inst_id, gw_serial, dev_id, new_expires⟩))
                  | .error _ => ([.refreshPost], Option.none)
                else ([], Option.none)
          else ([], Option.none)

/-- `get_valid_token`: the cache phase, falling through to the full OAuth
flow when the cache does not settle the call.  Returns the ordered side
effects together with the result or raised error. -/
def get_valid_token (now : Int) (oracle : AuthOracle) (cache : Option CacheFile) :
    List Event × Except PyError GvtResult :=
  match gvt_cache_phase now oracle cache with
  | (evs, some r) => (evs, r)
  | (evs, Option.none) =>
      let (evs2, r) := full_oauth_flow now oracle cache.isSome
      (evs ++ evs2, r)

/-! ### `exchange_code_for_token` -/

/-- `exchange_code_for_token` as written in `api_auth/auth.py`: raises on
status `>= 400`, on invalid JSON, and on a falsy `access_token`; otherwise
returns the `access_token` value alone (a bare string, not a record).
`PyError.typeError` models the uncaught `AttributeError` of calling `.get`
on a non-dict payload. -/
def exchange_code_for_token (url : String) (resp : HttpResponse) :
    Except PyError PyVal :=
  if 400 ≤ resp.status then
    .error (.cli ⟨"/token failed: HTTP error from " ++ url⟩)
  else
    match resp.json with
    | Option.none => .error (.cli ⟨"/token response was not valid JSON from " ++ url⟩)
    | some payload =>
        if !pyIsDict payload then .error .typeError
        else
          let token := pyGet payload "access_token"
          if !pyTruthy token then
            .error (.cli ⟨"/token response missing access_token from " ++ url⟩)
          else .ok token

/-- Modelled from the spec: `exchange_code_for_token` as section 4.3
describes it — fails if non-2xx, non-JSON, or missing a non-empty
`access_token`; otherwise returns the record
`{access_token, refresh_token?, expires_in?}` parsed from the response.
The record-returning implementation the tests and `get_valid_token`
exercise is missing from the source snapshot. -/
def exchange_code_for_token_spec (url : String) (resp : HttpResponse) :
    Except CliError TokenResponse :=
  if !(200 ≤ resp.status && resp.status ≤ 299) then
    .error ⟨"/token failed: HTTP error from " ++ url⟩
  else
    match resp.json with
    | Option.none => .error ⟨"/token response was not valid JSON from " ++ url⟩
    | some payload =>
        match pyGet payload "access_token" with
        | .str s =>
            if s = "" then .error ⟨"/token response missing access_token from " ++ url⟩
            else
              .ok ⟨s,
                   match pyGet payload "refresh_token" with
                   | .str r => some r
                   | _ => Option.none,
                   match pyGet payload "expires_in" with
                   | .int n => some n
                   | _ => Option.none⟩
        | _ => .error ⟨"/token response missing access_token from " ++ url⟩

/-! ### Authorization-code extraction (`api_auth/auth.py`) -/

/-- Hex digit value, if any. -/
def hexVal (c : Char) : Option Nat :=
  if '0' ≤ c && c ≤ '9' then some (c.toNat - 48)
  else if 'a' ≤ c && c ≤ 'f' then some (c.toNat - 87)
  else if 'A' ≤ c && c ≤ 'F' then some (c.toNat - 55)
  else Option.none

/-- Percent-decoding as `urllib.parse.unquote` behaves on ASCII input:
`%xx` becomes the byte, malformed escapes stay literal.  (Multi-byte UTF-8
sequences are outside the model.) -/
def percentDecode : List Char → List Char
  | [] => []
  | '%' :: a :: b :: rest =>
      match hexVal a, hexVal b with
      | some ha, some hb => Char.ofNat (ha * 16 + hb) :: percentDecode rest
      | _, _ => '%' :: percentDecode (a :: b :: rest)
  | c :: rest => c :: percentDecode rest

/-- The decoding `parse_qsl` applies to each name and value:
plus-to-space, then percent-decoding. -/
def urlDecode (cs : List Char) : List Char :=
  percentDecode (cs.map (fun c => if c = '+' then ' ' else c))

/-- The query component as `urlparse` isolates it: drop everything from the
first `#`, then take everything after the first `?` (empty when there is
no `?`). -/
def urlQueryOf (url : String) : List Char :=
  let beforeFrag :=
    match splitAtFirst '#' url.toList with
    | some (l, _) => l
    | Option.none => url.toList
  match splitAtFirst '?' beforeFrag with
  | some (_, q) => q
  | Option.none => []

/-- One field of `parse_qsl` with its defaults: skip empty fields, fields
without `=`, and fields whose raw value is empty; decode name and value. -/
def parseQsField (field : List Char) : Option (List Char × List Char) :=
  if field.isEmpty then Option.none
  else
    match splitAtFirst '=' field with
    | Option.none => Option.none
    | some (name, val) =>
        if val.isEmpty then Option.none
        else some (urlDecode name, urlDecode val)

/-- Split a character list on a separator (every occurrence), keeping
empty segments, as `query.split("&")` does. -/
def splitOnChar (sep : Char) : List Char → List (List Char)
  | [] => [[]]
  | c :: cs =>
      if c = sep then [] :: splitOnChar sep cs
      else
        match splitOnChar sep cs with
        | seg :: rest => (c :: seg) :: rest
        | [] => [[c]]

/-- `parse_qs(query)["code"]` head: the first `code` field with a non-empty
raw value, decoded. -/
def queryCodeValues (query : List Char) : List (List Char) :=
  ((splitOnChar '&' query).filterMap parseQsField).filterMap
    (fun nv => if nv.1 = "code".toList then some nv.2 else Option.none)

/-- `_extract_code_from_url`: the first non-empty `code` query parameter of
the URL, if any. -/
def _extract_code_from_url (url : String) : Option String :=
  match queryCodeValues (urlQueryOf url) with
  | v :: _ => if v.isEmpty then Option.none else some (String.mk v)
  | [] => Option.none

/-- ASCII lowercase of one character (header names are ASCII). -/
def lowerChar (c : Char) : Char :=
  if 'A' ≤ c && c ≤ 'Z' then Char.ofNat (c.toNat + 32) else c

/-- ASCII lowercase of a string, as a character list. -/
def strLower (s : String) : List Char := s.toList.map lowerChar

/-- Case-insensitive header lookup, as the `requests` header mapping
resolves `headers.get(name)`. -/
def headersGetCI (headers : List (String × String)) (name : String) : Option String :=
  match headers.find? (fun kv => strLower kv.1 = strLower name) with
  | some kv => some kv.2
  | Option.none => Option.none

/-- The `/authorize` response as `extract_authorization_code` observes it. -/
structure AuthResponse where
  headers : List (String × String)
  url : String
  text : String

/-- The regex class `[^"&\s]`: every character other than a double quote,
an ampersand, or ASCII whitespace. -/
def codeCharOk (c : Char) : Bool :=
  !(c = '"' || c = '&' || c = ' ' || c = '\t' || c = '\n' || c = '\r' ||
    c = '\x0b' || c = '\x0c')

/-- Body fallback `re.search(r'code=([^"&\s]+)', body)`: the leftmost
position where `code=` is followed by at least one admissible character;
the group is the maximal run of admissible characters. -/
def bodyCodeSearch : List Char → Option String
  | [] => Option.none
  | c :: rest =>
      let here : Option String :=
        if "code=".toList.isPrefixOf (c :: rest) then
          let after := (c :: rest).drop 5
          let run := after.takeWhile codeCharOk
          if run.isEmpty then Option.none else some (String.mk run)
        else Option.none
      match here with
      | some s => some s
      | Option.none => bodyCodeSearch rest

/-- The exact message of the `CliError` raised when no strategy yields a
code (the `AuthorizationCodeNotFound` of the specification). -/
def authorizationCodeNotFoundMsg : String :=
  "Failed to extract authorization code from /authorize response " ++
  "(no Location header, no code in URL, no code=... in response body)."

/-- Python `a or b` on optional strings: an empty or absent first operand
falls through to the second. -/
def strOrNone (a b : Option String) : Option String :=
  match a with
  | some s => if s = "" then b else some s
  | Option.none => b

/-- `extract_authorization_code`: Location header (case-insensitive, falsy
values skipped), then the final URL (when non-empty), then the body regex;
raises when all three fail. -/
def extract_authorization_code (resp : AuthResponse) : Except CliError String :=
  let location := strOrNone (headersGetCI resp.headers "Location")
                            (headersGetCI resp.headers "location")
  let fromLocation : Option String :=
    match location with
    | some l => if l = "" then Option.none else _extract_code_from_url l
    | Option.none => Option.none
  match fromLocation with
  | some code => .ok code
  | Option.none =>
      let fromUrl : Option String :=
        if resp.url = "" then Option.none else _extract_code_from_url resp.url
      match fromUrl with
      | some code => .ok code
      | Option.none =>
          match bodyCodeSearch resp.text.toList with
          | some code => .ok code
          | Option.none => .error ⟨authorizationCodeNotFoundMsg⟩

/-- The Location-header candidate of the fallback chain. -/
def locationCandidate (resp : AuthResponse) : Option String :=
  match strOrNone (headersGetCI resp.headers "Location")
                  (headersGetCI resp.headers "location") with
  | some l => if l = "" then Option.none else _extract_code_from_url l
  | Option.none => Option.none

/-- The final-URL candidate of the fallback chain. -/
def urlCandidate (resp : AuthResponse) : Option String :=
  if resp.url = "" then Option.none else _extract_code_from_url resp.url

/-- The body-regex candidate of the fallback chain. -/
def bodyCandidate (resp : AuthResponse) : Option String :=
  bodyCodeSearch resp.text.toList

/-! ### PKCE: SHA-256, base64url without padding, `code_challenge_s256` -/

/-- Truncation to a 32-bit word. -/
def w32 (n : Nat) : Nat := n % 4294967296

/-- 32-bit right rotation. -/
def rotr32 (n x : Nat) : Nat := w32 ((x >>> n) ||| (x <<< (32 - n)))

/-- SHA-256 lowercase sigma 0. -/
def smallSigma0 (x : Nat) : Nat := (rotr32 7 x) ^^^ (rotr32 18 x) ^^^ (x >>> 3)

/-- SHA-256 lowercase sigma 1. -/
def smallSigma1 (x : Nat) : Nat := (rotr32 17 x) ^^^ (rotr32 19 x) ^^^ (x >>> 10)

/-- SHA-256 uppercase Sigma 0. -/
def bigSigma0 (x : Nat) : Nat := (rotr32 2 x) ^^^ (rotr32 13 x) ^^^ (rotr32 22 x)

/-- SHA-256 uppercase Sigma 1. -/
def bigSigma1 (x : Nat) : Nat := (rotr32 6 x) ^^^ (rotr32 11 x) ^^^ (rotr32 25 x)

/-- SHA-256 choice function (complement via xor with the 32-bit mask). -/
def chFn (x y z : Nat) : Nat := (x &&& y) ^^^ ((x ^^^ 4294967295) &&& z)

/-- SHA-256 majority function. -/
def majFn (x y z : Nat) : Nat := (x &&& y) ^^^ (x &&& z) ^^^ (y &&& z)

/-- The 64 SHA-256 round constants (decimal). -/
def sha256K : List Nat :=
  [1116352408, 1899447441, 3049323471, 3921009573, 961987163, 1508970993,
   2453635748, 2870763221, 3624381080, 310598401, 607225278, 1426881987,
   1925078388, 2162078206, 2614888103, 3248222580, 3835390401, 4022224774,
   264347078, 604807628, 770255983, 1249150122, 1555081692, 1996064986,
   2554220882, 2821834349, 2952996808, 3210313671, 3336571891, 3584528711,
   113926993, 338241895, 666307205, 773529912, 1294757372, 1396182291,
   1695183700, 1986661051, 2177026350, 2456956037, 2730485921, 2820302411,
   3259730800, 3345764771, 3516065817, 3600352804, 4094571909, 275423344,
   430227734, 506948616, 659060556, 883997877, 958139571, 1322822218,
   1537002063, 1747873779, 1955562222, 2024104815, 2227730452, 2361852424,
   2428436474, 2756734187, 3204031479, 3329325298]

/-- The SHA-256 initial hash value (decimal). -/
def sha256H0 : List Nat :=
  [1779033703, 3144134277, 1013904242, 2773480762, 1359893119, 2600822924,
   528734635, 1541459225]

/-- 8-byte big-endian encoding (for the padded bit length). -/
def beBytes8 (n : Nat) : List Nat :=
  [(n >>> 56) % 256, (n >>> 48) % 256, (n >>> 40) % 256, (n >>> 32) % 256,
   (n >>> 24) % 256, (n >>> 16) % 256, (n >>> 8) % 256, n % 256]

/-- 4-byte big-endian encoding of a 32-bit word. -/
def beBytes4 (n : Nat) : List Nat :=
  [(n >>> 24) % 256, (n >>> 16) % 256, (n >>> 8) % 256, n % 256]

/-- SHA-256 padding: `0x80`, zeros to 56 mod 64, then the bit length. -/
def sha256Pad (msg : List Nat) : List Nat :=
  let padZeros := (119 - msg.length % 64) % 64
  msg ++ [0x80] ++ List.replicate padZeros 0 ++ beBytes8 (8 * msg.length)

/-- Big-endian 32-bit words from bytes (length a multiple of 4). -/
def bytesToWords : List Nat → List Nat
  | a :: b :: c :: d :: rest =>
      (a * 16777216 + b * 65536 + c * 256 + d) :: bytesToWords rest
  | _ => []

/-- Split a word list into 16-word blocks (the padded input is always a
multiple of 16 words). -/
def chunk16 : List Nat → List (List Nat)
  | w0 :: w1 :: w2 :: w3 :: w4 :: w5 :: w6 :: w7 ::
    w8 :: w9 :: w10 :: w11 :: w12 :: w13 :: w14 :: w15 :: rest =>
      [w0, w1, w2, w3, w4, w5, w6, w7, w8, w9, w10, w11, w12, w13, w14, w15] ::
      chunk16 rest
  | [] => []
  | short => [short]

/-- The 64-entry message schedule of one block. -/
def schedule (block : List Nat) : Array Nat :=
  (List.range 48).foldl
    (fun w i =>
      let t := i + 16
      w.push (w32 (smallSigma1 (w.getD (t - 2) 0) + w.getD (t - 7) 0 +
                   smallSigma0 (w.getD (t - 15) 0) + w.getD (t - 16) 0)))
    block.toArray

/-- One SHA-256 block compression. -/
def sha256Compress (h : List Nat) (block : List Nat) : List Nat :=
  let w := schedule block
  let final := (List.range 64).foldl
    (fun (st : List Nat) t =>
      match st with
      | [a, b, c, d, e, f, g, hh] =>
          let t1 := w32 (hh + bigSigma1 e + chFn e f g + sha256K.getD t 0 + w.getD t 0)
          let t2 := w32 (bigSigma0 a + majFn a b c)
          [w32 (t1 + t2), a, b, c, w32 (d + t1), e, f, g]
      | other => other)
    h
  List.zipWith (fun x y => w32 (x + y)) h final

/-- SHA-256 of a byte list, as a 32-byte list. -/
def sha256 (msg : List Nat) : List Nat :=
  let blocks := chunk16 (bytesToWords (sha256Pad msg))
  ((blocks.foldl sha256Compress sha256H0).map beBytes4).flatten

/-- The URL-safe base64 alphabet of `base64.urlsafe_b64encode`. -/
def b64urlAlphabet : List Char :=
  "ABCDEFGHIJKLMNOPQRSTUVWXYZabcdefghijklmnopqrstuvwxyz0123456789-_".toList

/-- One alphabet character. -/
def b64Char (n : Nat) : Char := b64urlAlphabet.getD n 'A'

/-- URL-safe base64 with `=` padding. -/
def base64urlEncode : List Nat → List Char
  | [] => []
  | [a] => [b64Char (a >>> 2), b64Char ((a % 4) <<< 4), '=', '=']
  | [a, b] => [b64Char (a >>> 2), b64Char (((a % 4) <<< 4) ||| (b >>> 4)),
               b64Char ((b % 16) <<< 2), '=']
  | a :: b :: c :: rest =>
      b64Char (a >>> 2) :: b64Char (((a % 4) <<< 4) ||| (b >>> 4)) ::
      b64Char (((b % 16) <<< 2) ||| (c >>> 6)) :: b64Char (c % 64) ::
      base64urlEncode rest

/-- `_base64url_no_padding`: URL-safe base64 with the trailing `=` padding
stripped (`rstrip("=")`). -/
def _base64url_no_padding (raw : List Nat) : String :=
  String.mk (((base64urlEncode raw).reverse.dropWhile (fun c => c = '=')).reverse)

/-- `verifier.encode("ascii")`: the code points as bytes (the verifier
alphabet is ASCII; non-ASCII input, where Python raises, is outside the
model). -/
def asciiBytes (s : String) : List Nat := s.toList.map Char.toNat

/-- `code_challenge_s256`: base64url without padding of the SHA-256 digest
of the ASCII-encoded verifier. -/
def code_challenge_s256 (verifier : String) : String :=
  _base64url_no_padding (sha256 (asciiBytes verifier))

/-! ## Theorems -/

/-- A key whose lookup is not `None` is present in the dict. -/
theorem pyHasKey_of_pyGet_ne_none (kvs : List (String × PyVal)) (k : String)
    (h : pyGet (.dict kvs) k ≠ .none) : pyHasKey (.dict kvs) k = true := by
  induction kvs with
  | nil => simp [pyGet, pyLookup] at h
  | cons kv rest ih =>
      obtain ⟨k', v⟩ := kv
      by_cases hk : k' = k
      · simp [pyHasKey, List.any_cons, hk]
      · simp only [pyGet, pyLookup, hk, if_false] at h
        have h2 : pyGet (.dict rest) k ≠ .none := by
          simpa [pyGet] using h
        have h3 := ih h2
        simp only [pyHasKey, List.any_cons, hk] at h3 ⊢
        simpa using h3

/-- C5: the S256 code challenge is the unpadded base64url encoding of the
SHA-256 digest of the ASCII-encoded verifier, and on the RFC 7636 test
verifier it equals the RFC reference challenge exactly. -/
theorem C5_pkce_s256_challenge :
    (∀ v : String, code_challenge_s256 v = _base64url_no_padding (sha256 (asciiBytes v))) ∧
    code_challenge_s256 "dBjftJeZ4CVP-mB92K27uhbUJU1p1r_wW1gFWFOEjXk" =
      "E9Melhoa2OwvFrEMTJguCHaoeK1t8URWbuGJSstw-cM" :=
  ⟨fun _ => rfl, by decide⟩

/-- C6: `_extract_list` maps all three provider envelope shapes of one
object to the identical one-item list: a `data`-wrapped object, a
`data`-wrapped singleton array, and a bare singleton array. -/
theorem C6_envelope_normalization (kvs : List (String × PyVal)) (url : String) :
    _extract_list (.dict [("data", .dict kvs)]) url = .ok [.dict kvs] ∧
    _extract_list (.dict [("data", .list [.dict kvs])]) url = .ok [.dict kvs] ∧
    _extract_list (.list [.dict kvs]) url = .ok [.dict kvs] :=
  ⟨rfl, rfl, rfl⟩

/-- C3: evaluation of `exchange_code_for_token` as written in
`api_auth/auth.py` at a successful token response.  The function returns
the bare `access_token` string and discards `refresh_token`/`expires_in`
(two responses differing in `refresh_token` give the same result), while
the record the specification, the in-repo caller `get_valid_token`, and
`test_token_refresh.py` require — modelled by
`exchange_code_for_token_spec` — distinguishes them. -/
theorem C3_token_exchange_returns_bare_string :
    exchange_code_for_token "https://token"
      ⟨200, "", some (.dict [("access_token", .str "NEW_TOKEN"),
                             ("refresh_token", .str "NEW_REFRESH"),
                             ("expires_in", .int 3600)])⟩ = .ok (.str "NEW_TOKEN") ∧
    exchange_code_for_token "https://token"
      ⟨200, "", some (.dict [("access_token", .str "NEW_TOKEN"),
                             ("expires_in", .int 3600)])⟩ = .ok (.str "NEW_TOKEN") ∧
    exchange_code_for_token_spec "https://token"
      ⟨200, "", some (.dict [("access_token", .str "NEW_TOKEN"),
                             ("refresh_token", .str "NEW_REFRESH"),
                             ("expires_in", .int 3600)])⟩ =
      .ok ⟨"NEW_TOKEN", some "NEW_REFRESH", some 3600⟩ ∧
    exchange_code_for_token_spec "https://token"
      ⟨200, "", some (.dict [("access_token", .str "NEW_TOKEN"),
                             ("expires_in", .int 3600)])⟩ =
      .ok ⟨"NEW_TOKEN", Option.none, some 3600⟩ :=
  ⟨rfl, rfl, rfl, rfl⟩

/-- C7: gas-consumption pairing reads `day.value`: with at least two
elements it returns their float values as (today, yesterday); with one
element, (value, null); with an empty array, a non-dict `day` (covering a
missing key), or non-dict input, (null, null) — and the function is total,
so it never raises. -/
theorem C7_gas_consumption_pairing :
    (∀ (pkvs dkvs : List (String × PyVal)) (v0 v1 : PyVal) (rest : List PyVal) (q0 q1 : Rat),
       pyGet (.dict pkvs) "day" = .dict dkvs →
       pyGet (.dict dkvs) "value" = .list (v0 :: v1 :: rest) →
       pyFloatCatch v0 = some q0 → pyFloatCatch v1 = some q1 →
       _extract_gas_consumption_m3_pair (.dict pkvs) = (some q0, some q1)) ∧
    (∀ (pkvs dkvs : List (String × PyVal)) (v0 : PyVal) (q0 : Rat),
       pyGet (.dict pkvs) "day" = .dict dkvs →
       pyGet (.dict dkvs) "value" = .list [v0] →
       pyFloatCatch v0 = some q0 →
       _extract_gas_consumption_m3_pair (.dict pkvs) = (some q0, Option.none)) ∧
    (∀ (pkvs dkvs : List (String × PyVal)),
       pyGet (.dict pkvs) "day" = .dict dkvs →
       pyGet (.dict dkvs) "value" = .list [] →
       _extract_gas_consumption_m3_pair (.dict pkvs) = (Option.none, Option.none)) ∧
    (∀ (pkvs : List (String × PyVal)),
       pyIsDict (pyGet (.dict pkvs) "day") = false →
       _extract_gas_consumption_m3_pair (.dict pkvs) = (Option.none, Option.none)) ∧
    (∀ p : PyVal, pyIsDict p = false →
       _extract_gas_consumption_m3_pair p = (Option.none, Option.none)) := by
  refine ⟨?_, ?_, ?_, ?_, ?_⟩
  · intro pkvs dkvs v0 v1 rest q0 q1 hday hval h0 h1
    simp only [_extract_gas_consumption_m3_pair]
    rw [hday]
    simp only []
    rw [hval]
    simp [h0, h1]
  · intro pkvs dkvs v0 q0 hday hval h0
    simp only [_extract_gas_consumption_m3_pair]
    rw [hday]
    simp only []
    rw [hval]
    simp [h0]
  · intro pkvs dkvs hday hval
    simp only [_extract_gas_consumption_m3_pair]
    rw [hday]
    simp only []
    rw [hval]
    simp
  · intro pkvs hday
    simp only [_extract_gas_consumption_m3_pair]
    cases hd : pyGet (.dict pkvs) "day" with
    | dict dkvs => rw [hd] at hday; simp [pyIsDict] at hday
    | none => simp
    | bool b => simp
    | int n => simp
    | float q => simp
    | str s => simp
    | list xs => simp
  · intro p hp
    cases p with
    | dict kvs => simp [pyIsDict] at hp
    | none => rfl
    | bool b => rfl
    | int n => rfl
    | float q => rfl
    | str s => rfl
    | list xs => rfl

/-- C7 witness: the spec examples `day.value = [5.5, 8.3, 9]`, `[5.5]`,
`[]`, and a missing `day` key, each through the theorem. -/
theorem C7_gas_consumption_pairing_witness :
    _extract_gas_consumption_m3_pair
        (.dict [("day", .dict [("value", .list [.float (5.5 : Rat), .float (8.3 : Rat), .int 9])])]) =
      (some (5.5 : Rat), some (8.3 : Rat)) ∧
    _extract_gas_consumption_m3_pair
        (.dict [("day", .dict [("value", .list [.float (5.5 : Rat)])])]) =
      (some (5.5 : Rat), Option.none) ∧
    _extract_gas_consumption_m3_pair
        (.dict [("day", .dict [("value", .list [])])]) = (Option.none, Option.none) ∧
    _extract_gas_consumption_m3_pair (.dict [("week", .dict [])]) =
      (Option.none, Option.none) :=
  ⟨C7_gas_consumption_pairing.1 _ _ _ _ [.int 9] (5.5 : Rat) (8.3 : Rat) rfl rfl rfl rfl,
   C7_gas_consumption_pairing.2.1 _ _ _ (5.5 : Rat) rfl rfl rfl,
   C7_gas_consumption_pairing.2.2.1 _ _ rfl rfl,
   C7_gas_consumption_pairing.2.2.2.1 _ rfl⟩

/-- C8: extraction never raises for an absent feature: `extract_feature_value`
returns `None` for every path when the feature is `None`, and a feature
record whose `isEnabled` is `false` makes `get_feature_data` return `None`
both through a supplied cached list and through the single-feature fetch. -/
theorem C8_absent_feature_never_raises :
    (∀ path : String, extract_feature_value path Option.none = PyVal.none) ∧
    (∀ (path url : String) (resp : HttpResponse) (features : List PyVal) (f : PyVal),
       features.find? (fun g => pyIsDict g && pyEqStr (pyGet g "feature") path) = some f →
       pyGetD f "isEnabled" (.bool true) = .bool false →
       get_feature_data path (some features) url resp = .ok Option.none) ∧
    (∀ (path url : String) (resp : HttpResponse) (payload f : PyVal) (rest : List PyVal),
       resp.status ≠ 404 → resp.status < 400 → resp.json = some payload →
       _extract_list payload url = .ok (f :: rest) →
       pyGetD f "isEnabled" (.bool true) = .bool false →
       get_feature_data path Option.none url resp = .ok Option.none) := by
  refine ⟨fun _ => rfl, ?_, ?_⟩
  · intro path url resp features f hfind hdis
    simp only [get_feature_data, get_feature_data_cached]
    rw [hfind]
    simp [hdis, pyTruthy]
  · intro path url resp payload f rest h404 hlt hjson hex hdis
    simp only [get_feature_data, get_single_feature]
    rw [if_neg h404, if_neg (by omega)]
    rw [hjson]
    simp only []
    rw [hex]
    simp [hdis, pyTruthy]

/-- C8 witness: a disabled cached record and a disabled fetched record both
yield `None`, through the theorem. -/
theorem C8_absent_feature_never_raises_witness :
    extract_feature_value "heating.sensors.temperature.outside" Option.none = PyVal.none ∧
    get_feature_data "heating.gas.consumption.heating"
        (some [PyVal.dict [("feature", .str "heating.gas.consumption.heating"),
                           ("isEnabled", .bool false)]])
        "https://f" ⟨200, "", Option.none⟩ = .ok Option.none ∧
    get_feature_data "heating.gas.consumption.heating" Option.none "https://f"
        ⟨200, "", some (.dict [("data",
            .dict [("feature", .str "heating.gas.consumption.heating"),
                   ("isEnabled", .bool false)])])⟩ = .ok Option.none :=
  ⟨C8_absent_feature_never_raises.1 _,
   C8_absent_feature_never_raises.2.1 _ _ ⟨200, "", Option.none⟩ _ _ rfl rfl,
   C8_absent_feature_never_raises.2.2 _ _ _ _
     (PyVal.dict [("feature", .str "heating.gas.consumption.heating"),
                  ("isEnabled", .bool false)]) []
     (by decide) (by decide) rfl rfl rfl⟩

/-- C10: a feature record with no `isEnabled` key is treated as enabled:
the cached lookup of `get_feature_data` returns the record, and
`get_single_feature` returns a fetched first record without the key. -/
theorem C10_missing_isEnabled_is_enabled :
    (∀ (path url : String) (resp : HttpResponse) (features : List PyVal) (f : PyVal),
       features.find? (fun g => pyIsDict g && pyEqStr (pyGet g "feature") path) = some f →
       pyHasKey f "isEnabled" = false →
       get_feature_data path (some features) url resp = .ok (some f)) ∧
    (∀ (url : String) (resp : HttpResponse) (payload f : PyVal) (rest : List PyVal),
       resp.status ≠ 404 → resp.status < 400 → resp.json = some payload →
       _extract_list payload url = .ok (f :: rest) →
       pyHasKey f "isEnabled" = false →
       get_single_feature url resp = .ok (some f)) := by
  constructor
  · intro path url resp features f hfind hmiss
    simp only [get_feature_data, get_feature_data_cached]
    rw [hfind]
    simp [pyGetD, hmiss, pyTruthy]
  · intro url resp payload f rest h404 hlt hjson hex hmiss
    simp only [get_single_feature]
    rw [if_neg h404, if_neg (by omega)]
    rw [hjson]
    simp only []
    rw [hex]
    simp [pyGetD, hmiss, pyTruthy]

/-- C10 witness: a record with only a `feature` key is returned by both
paths, through the theorem. -/
theorem C10_missing_isEnabled_is_enabled_witness :
    get_feature_data "heating.burners.0.statistics"
        (some [PyVal.dict [("feature", .str "heating.burners.0.statistics")]])
        "https://f" ⟨200, "", Option.none⟩ =
      .ok (some (PyVal.dict [("feature", .str "heating.burners.0.statistics")])) ∧
    get_single_feature "https://f"
        ⟨200, "", some (.dict [("data",
            .dict [("feature", .str "heating.burners.0.statistics")])])⟩ =
      .ok (some (PyVal.dict [("feature", .str "heating.burners.0.statistics")])) :=
  ⟨C10_missing_isEnabled_is_enabled.1 _ _ ⟨200, "", Option.none⟩ _ _ rfl rfl,
   C10_missing_isEnabled_is_enabled.2 _ _ _
     (PyVal.dict [("feature", .str "heating.burners.0.statistics")]) []
     (by decide) (by decide) rfl rfl rfl⟩

/-- C9 counterexample: numeric coercion is NOT uniform across the accepted
property shapes.  The numeric string "36.8" parses when bare under
`properties.temperature` but yields `None` bare under `properties.value`
(and the converse under the `{value: ...}` wrapper); and the
burner-statistics extractor does not pass the float 5.5 through but
truncates it to the integer 5. -/
theorem C9_counterexample :
    extract_temperature (.dict [("properties", .dict [("temperature", .str "36.8")])]) =
      some (36.8 : Rat) ∧
    extract_temperature (.dict [("properties", .dict [("value", .str "36.8")])]) =
      Option.none ∧
    extract_temperature (.dict [("properties", .dict [("value", .dict [("value", .str "36.8")])])]) =
      some (36.8 : Rat) ∧
    extract_temperature (.dict [("properties", .dict [("temperature", .dict [("value", .str "36.8")])])]) =
      Option.none ∧
    extract_burner_statistics (.dict [("properties", .dict [("hours", .float (5.5 : Rat))])]) =
      .dict [("betriebsstunden", .int 5), ("starts", .none)] := by
  refine ⟨?_, by decide, ?_, by decide, ?_⟩
  · rw [show (36.8 : Rat) = mkRat 184 5 by norm_num]
    decide
  · rw [show (36.8 : Rat) = mkRat 184 5 by norm_num]
    decide
  · rw [show (5.5 : Rat) = mkRat 11 2 by norm_num]
    rfl

/-- C9 amended: integers pass through in every accepted shape, and floats
pass through the temperature extractor but are truncated toward zero by
the burner-statistics extractor; numeric strings parse exactly where the
code routes them through `_coerce_float`/`_coerce_int` — bare under
`properties.temperature`, inside the `{value: ...}` wrapper under
`properties.value`, and in both positions for burner hours/starts — and
yield `None` in the remaining two temperature shapes; non-numeric strings
and missing values yield `None` everywhere, never an exception. -/
theorem C9_amended_numeric_coercion :
    (∀ n : Int,
       extract_temperature (.dict [("properties", .dict [("temperature", .int n)])]) = some (n : Rat) ∧
       extract_temperature (.dict [("properties", .dict [("temperature", .dict [("value", .int n)])])]) = some (n : Rat) ∧
       extract_temperature (.dict [("properties", .dict [("value", .int n)])]) = some (n : Rat) ∧
       extract_temperature (.dict [("properties", .dict [("value", .dict [("value", .int n)])])]) = some (n : Rat)) ∧
    (∀ q : Rat,
       extract_temperature (.dict [("properties", .dict [("temperature", .float q)])]) = some q ∧
       extract_temperature (.dict [("properties", .dict [("temperature", .dict [("value", .float q)])])]) = some q ∧
       extract_temperature (.dict [("properties", .dict [("value", .float q)])]) = some q ∧
       extract_temperature (.dict [("properties", .dict [("value", .dict [("value", .float q)])])]) = some q) ∧
    (∀ (s : String) (q : Rat), pyFloatParse s = some q →
       extract_temperature (.dict [("properties", .dict [("temperature", .str s)])]) = some q ∧
       extract_temperature (.dict [("properties", .dict [("value", .dict [("value", .str s)])])]) = some q ∧
       extract_temperature (.dict [("properties", .dict [("temperature", .dict [("value", .str s)])])]) = Option.none ∧
       extract_temperature (.dict [("properties", .dict [("value", .str s)])]) = Option.none) ∧
    (∀ s : String, pyFloatParse s = Option.none →
       extract_temperature (.dict [("properties", .dict [("temperature", .str s)])]) = Option.none ∧
       extract_temperature (.dict [("properties", .dict [("value", .dict [("value", .str s)])])]) = Option.none ∧
       extract_temperature (.dict [("properties", .dict [("temperature", .dict [("value", .str s)])])]) = Option.none ∧
       extract_temperature (.dict [("properties", .dict [("value", .str s)])]) = Option.none) ∧
    extract_temperature (.dict [("properties", .dict [])]) = Option.none ∧
    (∀ n : Int,
       extract_burner_statistics (.dict [("properties", .dict
           [("hours", .int n), ("starts", .dict [("value", .int n)])])]) =
         .dict [("betriebsstunden", .int n), ("starts", .int n)]) ∧
    (∀ q : Rat,
       extract_burner_statistics (.dict [("properties", .dict [("hours", .float q)])]) =
         .dict [("betriebsstunden", .int (ratTrunc q)), ("starts", .none)]) ∧
    (∀ (s : String) (q : Rat), pyFloatParse s = some q →
       extract_burner_statistics (.dict [("properties", .dict
           [("hours", .str s), ("starts", .dict [("value", .str s)])])]) =
         .dict [("betriebsstunden", .int (ratTrunc q)), ("starts", .int (ratTrunc q))]) ∧
    (∀ s : String, pyFloatParse s = Option.none →
       extract_burner_statistics (.dict [("properties", .dict [("hours", .str s)])]) =
         .dict [("betriebsstunden", .none), ("starts", .none)]) := by
  refine ⟨fun n => ⟨rfl, rfl, rfl, rfl⟩, fun q => ⟨rfl, rfl, rfl, rfl⟩, ?_, ?_, rfl,
          fun n => rfl, fun q => rfl, ?_, ?_⟩
  · intro s q h
    refine ⟨?_, ?_, rfl, rfl⟩ <;>
      simp [extract_temperature, _coerce_float, _extract_scalar_from_prop,
            pyOr, pyGet, pyLookup, pyHasKey, pyTruthy, h]
  · intro s h
    refine ⟨?_, ?_, rfl, rfl⟩ <;>
      simp [extract_temperature, _coerce_float, _extract_scalar_from_prop,
            pyOr, pyGet, pyLookup, pyHasKey, pyTruthy, h]
  · intro s q h
    simp [extract_burner_statistics, burnerField, _coerce_int,
          pyOr, pyGet, pyLookup, pyHasKey, pyTruthy, h]
  · intro s h
    simp [extract_burner_statistics, burnerField, _coerce_int,
          pyOr, pyGet, pyLookup, pyHasKey, pyTruthy, h]

/-- C9 amended witness: the string "36.8" and the non-numeric string "n/a"
through the theorem at its parse hypotheses. -/
theorem C9_amended_numeric_coercion_witness :
    extract_temperature (.dict [("properties", .dict [("temperature", .str "36.8")])]) =
      some (36.8 : Rat) ∧
    extract_burner_statistics (.dict [("properties", .dict
        [("hours", .str "123.7"), ("starts", .dict [("value", .str "123.7")])])]) =
      .dict [("betriebsstunden", .int 123), ("starts", .int 123)] ∧
    extract_temperature (.dict [("properties", .dict [("value", .str "unavailable")])]) =
      Option.none := by
  refine ⟨?_, ?_, ?_⟩
  · rw [show (36.8 : Rat) = mkRat 368 10 by norm_num]
    exact (C9_amended_numeric_coercion.2.2.1 "36.8" (mkRat 368 10) (by decide)).1
  · exact C9_amended_numeric_coercion.2.2.2.2.2.2.2.1 "123.7" (mkRat 1237 10) (by decide)
  · exact (C9_amended_numeric_coercion.2.2.2.1 "unavailable" (by decide)).2.2.2

/-- The extraction result is the literal three-step fallback chain over the
Location-header, final-URL, and body candidates. -/
theorem extract_auth_code_chain (resp : AuthResponse) :
    extract_authorization_code resp =
      match locationCandidate resp with
      | some c => Except.ok c
      | Option.none =>
          match urlCandidate resp with
          | some c => Except.ok c
          | Option.none =>
              match bodyCandidate resp with
              | some c => Except.ok c
              | Option.none => Except.error ⟨authorizationCodeNotFoundMsg⟩ := rfl

/-- C4: the authorization code comes from the Location header
(case-insensitive), else the final URL, else the body regex, in that
order; with all three candidates present and pairwise different the
Location code wins; with none, the call fails with the
authorization-code-not-found error. -/
theorem C4_authorization_code_extraction :
    (∀ resp : AuthResponse,
       extract_authorization_code resp =
         match locationCandidate resp with
         | some c => Except.ok c
         | Option.none =>
             match urlCandidate resp with
             | some c => Except.ok c
             | Option.none =>
                 match bodyCandidate resp with
                 | some c => Except.ok c
                 | Option.none => Except.error ⟨authorizationCodeNotFoundMsg⟩) ∧
    (∀ (resp : AuthResponse) (c1 c2 c3 : String),
       locationCandidate resp = some c1 → urlCandidate resp = some c2 →
       bodyCandidate resp = some c3 → c1 ≠ c2 → c1 ≠ c3 →
       extract_authorization_code resp = .ok c1) ∧
    (∀ resp : AuthResponse,
       locationCandidate resp = Option.none → urlCandidate resp = Option.none →
       bodyCandidate resp = Option.none →
       extract_authorization_code resp = .error ⟨authorizationCodeNotFoundMsg⟩) := by
  refine ⟨extract_auth_code_chain, ?_, ?_⟩
  · intro resp c1 c2 c3 h1 h2 h3 hne1 hne2
    rw [extract_auth_code_chain resp, h1]
  · intro resp h1 h2 h3
    rw [extract_auth_code_chain resp, h1, h2, h3]

/-- C4 witness: a response carrying three pairwise-different codes (header
code `LOC`, final-URL code `URL`, body code `BODY`) yields the header
code, and a response with none of the three fails, both through the
theorem. -/
theorem C4_authorization_code_extraction_witness :
    extract_authorization_code
        ⟨[("LOCATION", "http://localhost:4200/?code=LOC&state=s")],
         "http://localhost:4200/?code=URL",
         "<a href=\x22http://localhost:4200/?code=BODY\x22>ok</a>"⟩ = .ok "LOC" ∧
    extract_authorization_code ⟨[("Content-Type", "text/html")], "", "no match here"⟩ =
      .error ⟨authorizationCodeNotFoundMsg⟩ :=
  ⟨C4_authorization_code_extraction.2.1
      ⟨[("LOCATION", "http://localhost:4200/?code=LOC&state=s")],
       "http://localhost:4200/?code=URL",
       "<a href=\x22http://localhost:4200/?code=BODY\x22>ok</a>"⟩
      "LOC" "URL" "BODY" (by decide) (by decide) (by decide) (by decide) (by decide),
   C4_authorization_code_extraction.2.2
      ⟨[("Content-Type", "text/html")], "", "no match here"⟩
      (by decide) (by decide) (by decide)⟩

/-- C2: a cached record with a non-empty access token and an integer
`expires_at` with `now < expires_at - 300` is a cache hit:
`get_valid_token` returns the cached token, the cached refresh token and
equipment ids, and performs no network call and no cache write (empty
event list). -/
theorem C2_token_cache_hit (now : Int) (oracle : AuthOracle)
    (kvs : List (String × PyVal)) (a : String) (e : Int)
    (ha : pyGet (.dict kvs) "access_token" = .str a) (hne : a ≠ "")
    (he : pyGet (.dict kvs) "expires_at" = .int e)
    (hfresh : now < e - 300) :
    get_valid_token now oracle (some (.json (.dict kvs))) =
      ([], .ok ⟨.str a, pyGet (.dict kvs) "refresh_token",
                pyGet (.dict kvs) "installation_id",
                pyGet (.dict kvs) "gateway_serial",
                pyGet (.dict kvs) "device_id", .int e⟩) := by
  have hk1 : pyHasKey (.dict kvs) "access_token" = true :=
    pyHasKey_of_pyGet_ne_none _ _ (by rw [ha]; exact fun hcon => PyVal.noConfusion hcon)
  have hk2 : pyHasKey (.dict kvs) "expires_at" = true :=
    pyHasKey_of_pyGet_ne_none _ _ (by rw [he]; exact fun hcon => PyVal.noConfusion hcon)
  have hload : load_token_cache (.json (.dict kvs)) = some (.dict kvs) := by
    simp [load_token_cache, hk1, hk2]
  have hcast : ((now : Rat) < (e : Rat) - 300) := by exact_mod_cast hfresh
  have hphase : gvt_cache_phase now oracle (some (.json (.dict kvs))) =
      ([], some (.ok ⟨.str a, pyGet (.dict kvs) "refresh_token",
                      pyGet (.dict kvs) "installation_id",
                      pyGet (.dict kvs) "gateway_serial",
                      pyGet (.dict kvs) "device_id", .int e⟩)) := by
    simp only [gvt_cache_phase, hload]
    simp only [ha, he]
    simp [pyTruthy, hne, pyIsNone, pyAsNum, pyIntBuiltin, hcast]
  simp [get_valid_token, hphase]

/-- C2 witness: a record with `expires_at = now + 301` (now = 1000) is
reused with zero events, through the theorem. -/
theorem C2_token_cache_hit_witness :
    get_valid_token 1000
        ⟨fun _ => .error ⟨"down"⟩, .error ⟨"down"⟩, fun _ => .error ⟨"down"⟩⟩
        (some (.json (.dict
          [("access_token", .str "CACHED"), ("refresh_token", .str "CRT"),
           ("expires_at", .int 1301), ("installation_id", .str "inst-1"),
           ("gateway_serial", .str "gw-1"), ("device_id", .str "dev-1")]))) =
      ([], .ok ⟨.str "CACHED", .str "CRT", .str "inst-1", .str "gw-1",
                .str "dev-1", .int 1301⟩) :=
  C2_token_cache_hit 1000
    ⟨fun _ => .error ⟨"down"⟩, .error ⟨"down"⟩, fun _ => .error ⟨"down"⟩⟩
    [("access_token", .str "CACHED"), ("refresh_token", .str "CRT"),
     ("expires_at", .int 1301), ("installation_id", .str "inst-1"),
     ("gateway_serial", .str "gw-1"), ("device_id", .str "dev-1")]
    "CACHED" 1301 rfl (by decide) rfl (by decide)

/-- C1: with a cached record whose token is expired
(`¬ now < expires_at - 300`) and whose `refresh_token` is non-empty,
`get_valid_token` attempts the refresh grant; on success it writes the new
record back (merging the cached equipment ids, dropping `None` fields) and
returns the refreshed token, and on refresh failure it falls through to
the full OAuth flow — the caller sees the OAuth outcome, never the refresh
error. -/
theorem C1_refresh_then_fallback (now : Int) (oracle : AuthOracle)
    (kvs : List (String × PyVal)) (a rt : String) (e : Int)
    (ha : pyGet (.dict kvs) "access_token" = .str a) (hne : a ≠ "")
    (he : pyGet (.dict kvs) "expires_at" = .int e)
    (hexp : ¬ now < e - 300)
    (hrt : pyGet (.dict kvs) "refresh_token" = .str rt) (hrtne : rt ≠ "") :
    (∀ tr : TokenResponse, oracle.refresh (.str rt) = .ok tr →
       get_valid_token now oracle (some (.json (.dict kvs))) =
         ([.refreshPost,
           .save (dropNones
             [("access_token", .str tr.access_token),
              ("refresh_token", pyOr (optStrToPy tr.refresh_token) (.str rt)),
              ("expires_at", (match tr.expires_in with
                              | some ei => PyVal.int (now + ei)
                              | Option.none => PyVal.int e)),
              ("installation_id", pyGet (.dict kvs) "installation_id"),
              ("gateway_serial", pyGet (.dict kvs) "gateway_serial"),
              ("device_id", pyGet (.dict kvs) "device_id")])],
          .ok ⟨.str tr.access_token, pyOr (optStrToPy tr.refresh_token) (.str rt),
               pyGet (.dict kvs) "installation_id",
               pyGet (.dict kvs) "gateway_serial",
               pyGet (.dict kvs) "device_id",
               (match tr.expires_in with
                | some ei => PyVal.int (now + ei)
                | Option.none => PyVal.int e)⟩)) ∧
    (∀ err : CliError, oracle.refresh (.str rt) = .error err →
       get_valid_token now oracle (some (.json (.dict kvs))) =
         (Event.refreshPost :: (full_oauth_flow now oracle true).1,
          (full_oauth_flow now oracle true).2)) := by
  have hk1 : pyHasKey (.dict kvs) "access_token" = true :=
    pyHasKey_of_pyGet_ne_none _ _ (by rw [ha]; exact fun hcon => PyVal.noConfusion hcon)
  have hk2 : pyHasKey (.dict kvs) "expires_at" = true :=
    pyHasKey_of_pyGet_ne_none _ _ (by rw [he]; exact fun hcon => PyVal.noConfusion hcon)
  have hload : load_token_cache (.json (.dict kvs)) = some (.dict kvs) := by
    simp [load_token_cache, hk1, hk2]
  have hcastn : ¬ ((now : Rat) < (e : Rat) - 300) := by
    intro hcon
    exact hexp (by exact_mod_cast hcon)
  constructor
  · intro tr htr
    have hphase : gvt_cache_phase now oracle (some (.json (.dict kvs))) =
        ([.refreshPost,
          .save (dropNones
            [("access_token", .str tr.access_token),
             ("refresh_token", pyOr (optStrToPy tr.refresh_token) (.str rt)),
             ("expires_at", (match tr.expires_in with
                             | some ei => PyVal.int (now + ei)
                             | Option.none => PyVal.int e)),
             ("installation_id", pyGet (.dict kvs) "installation_id"),
             ("gateway_serial", pyGet (.dict kvs) "gateway_serial"),
             ("device_id", pyGet (.dict kvs) "device_id")])],
         some (.ok ⟨.str tr.access_token, pyOr (optStrToPy tr.refresh_token) (.str rt),
                    pyGet (.dict kvs) "installation_id",
                    pyGet (.dict kvs) "gateway_serial",
                    pyGet (.dict kvs) "device_id",
                    (match tr.expires_in with
                     | some ei => PyVal.int (now + ei)
                     | Option.none => PyVal.int e)⟩)) := by
      simp only [gvt_cache_phase, hload]
      simp only [ha, he, hrt]
      simp [pyTruthy, hne, hrtne, pyIsNone, pyAsNum, hcastn, htr]
    simp [get_valid_token, hphase]
  · intro err herr
    have hphase : gvt_cache_phase now oracle (some (.json (.dict kvs))) =
        ([.refreshPost], Option.none) := by
      simp only [gvt_cache_phase, hload]
      simp only [ha, he, hrt]
      simp [pyTruthy, hne, hrtne, pyIsNone, pyAsNum, hcastn, herr]
    simp [get_valid_token, hphase]

/-- C1 witness: one expired record (now = 1000, expires_at = 900) refreshed
successfully — new token persisted with the merged equipment ids — and the
same record with a failing refresh falling through to the full OAuth flow,
both through the theorem. -/
theorem C1_refresh_then_fallback_witness :
    get_valid_token 1000
        ⟨fun _ => .ok ⟨"NEW", some "NRT", some 1800⟩, .error ⟨"down"⟩,
         fun _ => .error ⟨"down"⟩⟩
        (some (.json (.dict
          [("access_token", .str "OLD"), ("refresh_token", .str "RT"),
           ("expires_at", .int 900), ("installation_id", .str "inst-1"),
           ("gateway_serial", .str "gw-1"), ("device_id", .str "dev-1")]))) =
      ([.refreshPost,
        .save [("access_token", .str "NEW"), ("refresh_token", .str "NRT"),
               ("expires_at", .int 2800), ("installation_id", .str "inst-1"),
               ("gateway_serial", .str "gw-1"), ("device_id", .str "dev-1")]],
       .ok ⟨.str "NEW", .str "NRT", .str "inst-1", .str "gw-1", .str "dev-1",
            .int 2800⟩) ∧
    get_valid_token 1000
        ⟨fun _ => .error ⟨"refresh rejected"⟩, .ok "CODE",
         fun _ => .ok ⟨"OAUTH_TOKEN", some "ORT", some 3600⟩⟩
        (some (.json (.dict
          [("access_token", .str "OLD"), ("refresh_token", .str "RT"),
           ("expires_at", .int 900), ("installation_id", .str "inst-1"),
           ("gateway_serial", .str "gw-1"), ("device_id", .str "dev-1")]))) =
      ([.refreshPost, .authorizePost, .tokenPost,
        .save [("access_token", .str "OAUTH_TOKEN"), ("refresh_token", .str "ORT"),
               ("expires_at", .int 4600)]],
       .ok ⟨.str "OAUTH_TOKEN", .str "ORT", .none, .none, .none, .int 4600⟩) :=
  ⟨(C1_refresh_then_fallback 1000
      ⟨fun _ => .ok ⟨"NEW", some "NRT", some 1800⟩, .error ⟨"down"⟩,
       fun _ => .error ⟨"down"⟩⟩
      [("access_token", .str "OLD"), ("refresh_token", .str "RT"),
       ("expires_at", .int 900), ("installation_id", .str "inst-1"),
       ("gateway_serial", .str "gw-1"), ("device_id", .str "dev-1")]
      "OLD" "RT" 900 rfl (by decide) rfl (by decide) rfl (by decide)).1
      ⟨"NEW", some "NRT", some 1800⟩ rfl,
   (C1_refresh_then_fallback 1000
      ⟨fun _ => .error ⟨"refresh rejected"⟩, .ok "CODE",
       fun _ => .ok ⟨"OAUTH_TOKEN", some "ORT", some 3600⟩⟩
      [("access_token", .str "OLD"), ("refresh_token", .str "RT"),
       ("expires_at", .int 900), ("installation_id", .str "inst-1"),
       ("gateway_serial", .str "gw-1"), ("device_id", .str "dev-1")]
      "OLD" "RT" 900 rfl (by decide) rfl (by decide) rfl (by decide)).2
      ⟨"refresh rejected"⟩ rfl⟩

end Viessmann
